import Mathlib

/-!
Verification of the live-tracking ingestion and map-overlay orchestration
layer (`src/app/rust/src/api/api.rs`) of the MemoLanes application.

The API layer under `src/` is embedded faithfully.  Its collaborators
(`GpsProcessor`, `MapRenderer`, `JourneyBitmap`, `Storage`,
`merged_journey_builder`, export encoders) live outside `src/`; they are
modelled from the specification's description of their contracts, with each
such definition carrying a doc comment saying so.  Machine floats
(`f64` coordinates) are carried opaquely: this layer never computes with
them, so they are represented by `Int` placeholders.  Global mutable state
(the `OnceLock` singleton) is passed explicitly as an `Option MainState`
argument, `none` meaning "not yet initialized"; an operation whose Rust
counterpart would panic (e.g. `get()` before `init`) returns `none`.
-/

namespace MemoLanes

/-- One raw GPS sample. Mirrors the fields of `gps_processor::RawData` that
this layer reads: `timestamp_ms`, `longitude`, `latitude`. Coordinates are
`f64` in Rust but are only passed through, never computed with, so they are
modelled as `Int`. -/
structure RawData where
  latitude : Int
  longitude : Int
  timestamp_ms : Int
deriving DecidableEq, Repr

/-- Mirrors `gps_processor::ProcessResult`: the classification of one
sample. -/
inductive ProcessResult where
  | Ignore
  | NewSegment
  | Append
deriving DecidableEq, Repr

/-- One line segment, as passed to `JourneyBitmap::add_line(start_lng,
start_lat, end_lng, end_lat)`. -/
structure Line where
  start_lng : Int
  start_lat : Int
  end_lng : Int
  end_lat : Int
deriving DecidableEq, Repr

/-- Modelled from the spec: `JourneyBitmap` (not under `src/`) is "an
append-only geometric accumulator of line segments"; we take the free
model, the list of added segments in order. -/
abbrev JourneyBitmap := List Line

/-- Mirrors `JourneyBitmap::new()`: the empty accumulator. -/
def JourneyBitmap.new : JourneyBitmap := []

/-- Modelled from the spec: the shared line-adding primitive
`add_segment`/`add_line`; in the free model it appends the segment. -/
def JourneyBitmap.add_line (bm : JourneyBitmap) (start_lng start_lat end_lng end_lat : Int) :
    JourneyBitmap :=
  bm ++ [⟨start_lng, start_lat, end_lng, end_lat⟩]

/-- A requested viewport: zoom plus bounds (bounds are opaque `f64`s in
Rust, modelled as `Int`). -/
structure Viewport where
  zoom : Int
  left : Int
  top : Int
  right : Int
  bottom : Int
deriving DecidableEq, Repr

/-- Modelled from the spec: the renderer's tile result is opaque to this
layer; we record the view that was rendered. -/
structure RenderResult where
  zoom : Int
  left : Int
  top : Int
  right : Int
  bottom : Int
deriving DecidableEq, Repr

/-- Modelled from the spec: `MapRenderer` (not under `src/`) wraps one
renderable bitmap and keeps an internal tile cache keyed by
viewport/zoom. -/
structure MapRenderer where
  journey_bitmap : JourneyBitmap
  cached_view : Option Viewport
deriving DecidableEq, Repr

/-- Mirrors `MapRenderer::new(journey_bitmap)`: fresh renderer, empty tile
cache. -/
def MapRenderer.new (journey_bitmap : JourneyBitmap) : MapRenderer :=
  { journey_bitmap := journey_bitmap, cached_view := none }

/-- Modelled from the spec: `maybe_render_map_overlay(zoom, l, t, r, b)`
returns an optional tile result — `none` when the renderer decides the
requested view needs no new tile versus a previous render (its internal
caching decision) — and remembers the view it last rendered. -/
def MapRenderer.maybe_render_map_overlay (mr : MapRenderer) (zoom left top right bottom : Int) :
    Option RenderResult × MapRenderer :=
  let vp : Viewport := ⟨zoom, left, top, right, bottom⟩
  if mr.cached_view = some vp then
    (none, mr)
  else
    (some ⟨zoom, left, top, right, bottom⟩, { mr with cached_view := some vp })

/-- Modelled from the spec: `MapRenderer::update(f)` mutates the wrapped
bitmap in place and invalidates the internal tile cache. -/
def MapRenderer.update (mr : MapRenderer) (f : JourneyBitmap → JourneyBitmap) : MapRenderer :=
  { journey_bitmap := f mr.journey_bitmap, cached_view := none }

/-- Modelled from the spec: `MapRenderer::reset()` clears the internal
render cache without discarding the underlying path data. -/
def MapRenderer.reset (mr : MapRenderer) : MapRenderer :=
  { mr with cached_view := none }

/-- Modelled from the spec: a stored vector path is a sequence of segments
to be replayed through the line-adding primitive. -/
abbrev JourneyVector := List Line

/-- Mirrors `journey_data::JourneyData`: a journey is stored either as a
ready-made bitmap or as a vector path. -/
inductive JourneyData where
  | Bitmap (bitmap : JourneyBitmap)
  | Vector (vector : JourneyVector)
deriving DecidableEq, Repr

/-- Errors surfaced by this layer: the store's lookup error for an absent
journey, and the "Data type error" raised by `export_journey` on a
bitmap-stored journey (`anyhow!("Data type error")` in `api.rs`). -/
inductive Err where
  | notFound (journey_id : String)
  | dataTypeError
deriving DecidableEq, Repr

/-- Modelled from the spec: the persistent store (not under `src/`).  It
holds the directories it was opened at, the journeys indexed by id, the
recorded classified samples, the "main path changed since last read" dirty
flag, and the latest main-path bitmap snapshot. -/
structure Storage where
  temp_dir : String
  doc_dir : String
  support_dir : String
  cache_dir : String
  journeys : List (String × JourneyData)
  records : List (RawData × ProcessResult × Int)
  main_dirty : Bool
  main_bitmap : JourneyBitmap
deriving DecidableEq, Repr

/-- Modelled from the spec: `Storage::init(temp_dir, doc_dir, support_dir,
cache_dir)` opens a store at the given directories. -/
def Storage.init (temp_dir doc_dir support_dir cache_dir : String) : Storage :=
  { temp_dir := temp_dir, doc_dir := doc_dir, support_dir := support_dir,
    cache_dir := cache_dir, journeys := [], records := [],
    main_dirty := false, main_bitmap := JourneyBitmap.new }

/-- Modelled from the spec: `record_gps_data(raw, result, received_ts)`
durably records one classified sample with the batch's received
timestamp. -/
def Storage.record_gps_data (s : Storage) (raw : RawData) (result : ProcessResult)
    (received_timestamp_ms : Int) : Storage :=
  { s with records := s.records ++ [(raw, result, received_timestamp_ms)] }

/-- Modelled from the spec: the dirty flag indicates "the main path has
changed on disk since last read", so querying it reports the flag and
clears it. -/
def Storage.main_map_renderer_need_to_reload (s : Storage) : Bool × Storage :=
  (s.main_dirty, { s with main_dirty := false })

/-- Modelled from the spec: fetch the store's current latest main-path
bitmap snapshot. -/
def Storage.get_latest_bitmap_for_main_map_renderer (s : Storage) : JourneyBitmap :=
  s.main_bitmap

/-- Modelled from the spec: `txn.get_journey(id)` fetches a journey by id,
failing with the store's lookup error when absent. -/
def Storage.get_journey (s : Storage) (journey_id : String) : Except Err JourneyData :=
  match s.journeys.lookup journey_id with
  | some journey_data => Except.ok journey_data
  | none => Except.error (Err.notFound journey_id)

/-- Modelled from the spec: `with_db_txn` runs one transaction-scoped
operation against the store. -/
def Storage.with_db_txn (s : Storage) (f : Storage → Except Err α) : Except Err α :=
  f s

/-- Modelled from the spec: the `GpsProcessor` (not under `src/`) is a
stateful sequential classifier over an abstract memory type `σ`:
`preprocess` classifies one sample as a function of the memory and the
sample, updating the memory as a side effect; `last_data` reads the last
accepted sample (none if no sample was ever accepted).  All pipeline
theorems are proved for an arbitrary such classifier. -/
structure GpsProcessorModel (σ : Type) where
  new : σ
  preprocess : σ → RawData → ProcessResult × σ
  last_data : σ → Option RawData

/-- Mirrors `MainState`: the process-wide singleton holding the store
handle, the optional cached main `MapRenderer`, and the `GpsProcessor`
memory (`σ`). The two `Mutex`es disappear in this sequential model. -/
structure MainState (σ : Type) where
  storage : Storage
  map_renderer : Option MapRenderer
  gps_processor : σ
deriving DecidableEq

/-- Mirrors `init(temp_dir, doc_dir, support_dir, cache_dir)`: the input
`Option (MainState σ)` is the `OnceLock` content before the call; the
result is its content after the call paired with whether the
"`init` is called multiple times" warning was logged. -/
def init (M : GpsProcessorModel σ) (g : Option (MainState σ))
    (temp_dir doc_dir support_dir cache_dir : String) : MainState σ × Bool :=
  match g with
  | some st => (st, true)
  | none =>
    ({ storage := Storage.init temp_dir doc_dir support_dir cache_dir,
       map_renderer := none,
       gps_processor := M.new }, false)

/-- Mirrors `MapRendererProxy`: either the main-map variant (defers to the
singleton cache) or a simple variant owning a private renderer. -/
inductive MapRendererProxy where
  | MainMap
  | Simple (mr : MapRenderer)
deriving DecidableEq

/-- The body of `MapRendererProxy::render_map_overlay` after the zoom
clamp (`api.rs` line 83): dispatch on the variant and forward the given
zoom verbatim to the renderer.  The outer `Option` models the panic of
`get()` on an uninitialized singleton (MainMap branch only); the result
carries the tile result, the proxy after the call (`&mut self`), and the
singleton state after the call. -/
def render_with_zoom (p : MapRendererProxy) (g : Option (MainState σ))
    (zoom left top right bottom : Int) :
    Option (Option RenderResult × MapRendererProxy × Option (MainState σ)) :=
  match p with
  | MapRendererProxy.MainMap =>
    match g with
    | none => none
    | some state =>
      let rl := state.storage.main_map_renderer_need_to_reload
      let slot : Option MapRenderer := if rl.1 then none else state.map_renderer
      let mr := slot.getD (MapRenderer.new rl.2.get_latest_bitmap_for_main_map_renderer)
      let rr := mr.maybe_render_map_overlay zoom left top right bottom
      some (rr.1, MapRendererProxy.MainMap,
        some { state with storage := rl.2, map_renderer := some rr.2 })
  | MapRendererProxy.Simple mr =>
    let rr := mr.maybe_render_map_overlay zoom left top right bottom
    some (rr.1, MapRendererProxy.Simple rr.2, g)

/-- Mirrors `MapRendererProxy::render_map_overlay`: clamp the requested
zoom to the floor 2 (`let zoom = max(zoom as i32, 2)`), then dispatch. -/
def MapRendererProxy.render_map_overlay (p : MapRendererProxy) (g : Option (MainState σ))
    (zoom left top right bottom : Int) :
    Option (Option RenderResult × MapRendererProxy × Option (MainState σ)) :=
  render_with_zoom p g (max zoom 2) left top right bottom

/-- Mirrors `MapRendererProxy::reset_map_renderer`. -/
def MapRendererProxy.reset_map_renderer (p : MapRendererProxy) (g : Option (MainState σ)) :
    Option (MapRendererProxy × Option (MainState σ)) :=
  match p with
  | MapRendererProxy.MainMap =>
    match g with
    | none => none
    | some state =>
      some (MapRendererProxy.MainMap,
        some { state with map_renderer := state.map_renderer.map MapRenderer.reset })
  | MapRendererProxy.Simple mr =>
    some (MapRendererProxy.Simple mr.reset, g)

/-- Mirrors `get_map_renderer_proxy_for_main_map`: always the `MainMap`
variant.  The Rust function takes no arguments and touches no state; the
`g` parameter stands for the ambient singleton only so that independence
from it can be stated. -/
def get_map_renderer_proxy_for_main_map (g : Option (MainState σ)) : MapRendererProxy :=
  MapRendererProxy.MainMap

/-- Modelled from the spec:
`merged_journey_builder::add_journey_vector_to_journey_bitmap` (not under
`src/`) replays every stored segment of the vector into the bitmap via the
same line-adding primitive used by ingestion. -/
def add_journey_vector_to_journey_bitmap (bitmap : JourneyBitmap) (vector : JourneyVector) :
    JourneyBitmap :=
  vector.foldl (fun bm seg => bm.add_line seg.start_lng seg.start_lat seg.end_lng seg.end_lat)
    bitmap

/-- Mirrors `get_map_renderer_proxy_for_journey(journey_id)`: fetch the
journey in one transaction, propagate the lookup error, use a stored
bitmap directly or rasterize a stored vector path into a fresh empty
bitmap, and wrap the renderer in a `Simple` proxy. -/
def get_map_renderer_proxy_for_journey (g : Option (MainState σ)) (journey_id : String) :
    Option (Except Err MapRendererProxy) :=
  match g with
  | none => none
  | some state =>
    match state.storage.with_db_txn (fun txn => txn.get_journey journey_id) with
    | Except.error e => some (Except.error e)
    | Except.ok journey_data =>
      let journey_bitmap :=
        match journey_data with
        | JourneyData.Bitmap bitmap => bitmap
        | JourneyData.Vector vector =>
          add_journey_vector_to_journey_bitmap JourneyBitmap.new vector
      some (Except.ok (MapRendererProxy.Simple (MapRenderer.new journey_bitmap)))

/-- The comparator used by `raw_data_list.sort_by(|a, b|
a.timestamp_ms.cmp(&b.timestamp_ms))`. -/
def tsLe (a b : RawData) : Bool :=
  decide (a.timestamp_ms ≤ b.timestamp_ms)

/-- Mirrors `raw_data_list.sort_by(...)`: Rust's `Vec::sort_by` is a
stable sort, modelled by `mergeSort`. -/
def sortBatch (l : List RawData) : List RawData :=
  l.mergeSort tsLe

/-- The per-sample body of the `for_each` loop in `on_location_update`:
read `last_data`, classify (updating the processor memory), map the
classification to an optional line, mutate the cached renderer if both are
present, and unconditionally record the sample. -/
def on_location_update_step (M : GpsProcessorModel σ) (state : MainState σ)
    (raw_data : RawData) (recevied_timestamp_ms : Int) : MainState σ :=
  let last_data := M.last_data state.gps_processor
  let pr := M.preprocess state.gps_processor raw_data
  let line_to_add : Option (RawData × RawData) :=
    match pr.1 with
    | ProcessResult.Ignore => none
    | ProcessResult.NewSegment => some (raw_data, raw_data)
    | ProcessResult.Append => some (last_data.getD raw_data, raw_data)
  let map_renderer : Option MapRenderer :=
    match state.map_renderer, line_to_add with
    | none, _ => none
    | some mr, none => some mr
    | some mr, some se =>
      some (mr.update (fun journey_bitmap =>
        journey_bitmap.add_line se.1.longitude se.1.latitude se.2.longitude se.2.latitude))
  { storage := state.storage.record_gps_data raw_data pr.1 recevied_timestamp_ms,
    map_renderer := map_renderer,
    gps_processor := pr.2 }

/-- Mirrors `on_location_update(raw_data_list, recevied_timestamp_ms)`:
abort (`none`) when the singleton is uninitialized, stable-sort the batch
by timestamp, and fold the per-sample step over it under both locks. -/
def on_location_update (M : GpsProcessorModel σ) (g : Option (MainState σ))
    (raw_data_list : List RawData) (recevied_timestamp_ms : Int) : Option (MainState σ) :=
  match g with
  | none => none
  | some state =>
    some ((sortBatch raw_data_list).foldl
      (fun s raw_data => on_location_update_step M s raw_data recevied_timestamp_ms) state)

/-- Mirrors `ExportType`. -/
inductive ExportType where
  | GPX
  | KML
deriving DecidableEq, Repr

/-- Observable side effects of `export_journey`: which files were created
and which serialization (encoder, vector) was attempted.  The encoders
themselves are external. -/
structure ExportEffects where
  files_created : List String
  serialized : Option (ExportType × JourneyVector)
deriving DecidableEq

/-- Mirrors `export_journey(target_filepath, journey_id, export_type)`:
fetch the journey in one transaction; a bitmap-stored journey fails with
`Data type error` before any file is created; a vector-stored journey gets
the target file created and is handed to the matching encoder. -/
def export_journey (g : Option (MainState σ)) (target_filepath journey_id : String)
    (export_type : ExportType) : Option (Except Err Unit × ExportEffects) :=
  match g with
  | none => none
  | some state =>
    match state.storage.with_db_txn (fun txn => txn.get_journey journey_id) with
    | Except.error e => some (Except.error e, { files_created := [], serialized := none })
    | Except.ok (JourneyData.Bitmap _) =>
      some (Except.error Err.dataTypeError, { files_created := [], serialized := none })
    | Except.ok (JourneyData.Vector vector) =>
      some (Except.ok (), { files_created := [target_filepath],
                            serialized := some (export_type, vector) })

/-- The list of `(sample, classification, received timestamp)` records that
processing `l` starting from processor memory `gps` appends to the store. -/
def persistTrace (M : GpsProcessorModel σ) (gps : σ) (received_timestamp_ms : Int) :
    List RawData → List (RawData × ProcessResult × Int)
  | [] => []
  | raw_data :: rest =>
    (raw_data, (M.preprocess gps raw_data).1, received_timestamp_ms) ::
      persistTrace M (M.preprocess gps raw_data).2 received_timestamp_ms rest

lemma tsLe_trans : ∀ a b c : RawData, tsLe a b → tsLe b c → tsLe a c := by
  intro a b c hab hbc
  simp only [tsLe, decide_eq_true_eq] at hab hbc ⊢
  omega

lemma tsLe_total : ∀ a b : RawData, tsLe a b || tsLe b a := by
  intro a b
  simp only [tsLe, Bool.or_eq_true, decide_eq_true_eq]
  omega

lemma sortBatch_filter_ts (batch : List RawData) (t : Int) :
    (sortBatch batch).filter (fun r => decide (r.timestamp_ms = t)) =
      batch.filter (fun r => decide (r.timestamp_ms = t)) := by
  have hpair : (batch.filter (fun r => decide (r.timestamp_ms = t))).Pairwise
      (fun a b => tsLe a b) := by
    apply List.pairwise_of_forall_mem_list
    intro a ha b hb
    have ha2 := (List.mem_filter.mp ha).2
    have hb2 := (List.mem_filter.mp hb).2
    simp only [decide_eq_true_eq] at ha2 hb2
    simp only [tsLe, decide_eq_true_eq, ha2, hb2]
    omega
  have hsub : List.Sublist (batch.filter (fun r => decide (r.timestamp_ms = t))) batch :=
    List.filter_sublist batch
  have h3 : List.Sublist (batch.filter (fun r => decide (r.timestamp_ms = t))) (sortBatch batch) :=
    List.sublist_mergeSort tsLe_trans tsLe_total hpair hsub
  have h4 := h3.filter (fun r => decide (r.timestamp_ms = t))
  rw [List.filter_eq_self.mpr (fun a ha => (List.mem_filter.mp ha).2)] at h4
  have hlen : ((sortBatch batch).filter (fun r => decide (r.timestamp_ms = t))).length =
      (batch.filter (fun r => decide (r.timestamp_ms = t))).length :=
    ((List.mergeSort_perm batch tsLe).filter (fun r => decide (r.timestamp_ms = t))).length_eq
  exact (h4.eq_of_length hlen.symm).symm

/-- Claim C2: for every batch passed to ingestion, samples are processed
in non-decreasing timestamp order regardless of arrival order, and samples
with equal timestamps keep their relative arrival order (the sort is
stable); ingestion folds the per-sample step over exactly this sorted
batch. -/
theorem c2_batch_processed_sorted_stable (batch : List RawData) :
    (sortBatch batch).Pairwise (fun a b => a.timestamp_ms ≤ b.timestamp_ms) ∧
    List.Perm (sortBatch batch) batch ∧
    (∀ t : Int, (sortBatch batch).filter (fun r => decide (r.timestamp_ms = t)) =
      batch.filter (fun r => decide (r.timestamp_ms = t))) ∧
    (∀ (σ : Type) (M : GpsProcessorModel σ) (st : MainState σ) (ts : Int),
      on_location_update M (some st) batch ts =
        some ((sortBatch batch).foldl
          (fun s raw_data => on_location_update_step M s raw_data ts) st)) := by
  refine ⟨?_, ?_, sortBatch_filter_ts batch, ?_⟩
  · have h := List.sorted_mergeSort tsLe_trans tsLe_total batch
    exact h.imp (fun hab => by simpa [tsLe] using hab)
  · exact List.mergeSort_perm batch tsLe
  · intro σ M st ts
    rfl

/-- Claim C1: for every `render_map_overlay` call on either proxy variant,
a requested zoom strictly below the minimum floor (2) is raised to the
floor before being forwarded to the renderer, and a requested zoom at or
above the floor is forwarded unchanged. -/
theorem c1_zoom_clamped_to_floor (p : MapRendererProxy) (g : Option (MainState σ))
    (mr : MapRenderer) (zoom left top right bottom : Int) :
    MapRendererProxy.render_map_overlay p g zoom left top right bottom =
      render_with_zoom p g (max zoom 2) left top right bottom ∧
    render_with_zoom (MapRendererProxy.Simple mr) g (max zoom 2) left top right bottom =
      some ((mr.maybe_render_map_overlay (max zoom 2) left top right bottom).1,
        MapRendererProxy.Simple (mr.maybe_render_map_overlay (max zoom 2) left top right bottom).2,
        g) ∧
    (zoom < 2 → max zoom 2 = 2) ∧
    (2 ≤ zoom → max zoom 2 = zoom) := by
  refine ⟨rfl, rfl, ?_, ?_⟩ <;> intro h <;> omega

/-- Witness for C1 at zoom 1 (below the floor) and zoom 5 (above it). -/
theorem c1_zoom_clamped_to_floor_witness :
    MapRendererProxy.render_map_overlay (σ := Unit) (MapRendererProxy.Simple (MapRenderer.new []))
        none 1 0 0 0 0 =
      render_with_zoom (MapRendererProxy.Simple (MapRenderer.new [])) none (max 1 2) 0 0 0 0 ∧
    ((1 : Int) < 2 ∧ max (1 : Int) 2 = 2) ∧
    ((2 : Int) ≤ 5 ∧ max (5 : Int) 2 = 5) :=
  ⟨(c1_zoom_clamped_to_floor (σ := Unit) (MapRendererProxy.Simple (MapRenderer.new [])) none
      (MapRenderer.new []) 1 0 0 0 0).1,
   ⟨by decide,
    (c1_zoom_clamped_to_floor (σ := Unit) (MapRendererProxy.Simple (MapRenderer.new [])) none
      (MapRenderer.new []) 1 0 0 0 0).2.2.1 (by decide)⟩,
   ⟨by decide,
    (c1_zoom_clamped_to_floor (σ := Unit) (MapRendererProxy.Simple (MapRenderer.new [])) none
      (MapRenderer.new []) 5 0 0 0 0).2.2.2 (by decide)⟩⟩

/-- Claim C3: for every sample processed by the ingestion step, the
classification maps to an optional path segment exactly as: Ignore yields
no segment; NewSegment yields the degenerate segment (sample, sample);
Append yields the segment from the last accepted sample as read before
classifying (or the sample itself if none was ever accepted) to the
sample. -/
theorem c3_classification_to_segment (M : GpsProcessorModel σ) (state : MainState σ)
    (raw_data : RawData) (ts : Int) :
    ((on_location_update_step M state raw_data ts).map_renderer).map MapRenderer.journey_bitmap =
      state.map_renderer.map (fun mr =>
        mr.journey_bitmap ++
          match (M.preprocess state.gps_processor raw_data).1 with
          | ProcessResult.Ignore => []
          | ProcessResult.NewSegment =>
            [⟨raw_data.longitude, raw_data.latitude, raw_data.longitude, raw_data.latitude⟩]
          | ProcessResult.Append =>
            [⟨((M.last_data state.gps_processor).getD raw_data).longitude,
              ((M.last_data state.gps_processor).getD raw_data).latitude,
              raw_data.longitude, raw_data.latitude⟩]) := by
  cases h : (M.preprocess state.gps_processor raw_data).1 <;>
    cases hmr : state.map_renderer <;>
      simp [on_location_update_step, MapRenderer.update, JourneyBitmap.add_line, h, hmr]

lemma foldl_step_records (M : GpsProcessorModel σ) (ts : Int) :
    ∀ (l : List RawData) (st : MainState σ),
      ((l.foldl (fun s raw_data => on_location_update_step M s raw_data ts) st).storage.records) =
        st.storage.records ++ persistTrace M st.gps_processor ts l := by
  intro l
  induction l with
  | nil => intro st; simp [persistTrace]
  | cons r rest ih =>
    intro st
    simp only [List.foldl_cons, persistTrace]
    rw [ih]
    simp [on_location_update_step, Storage.record_gps_data]

lemma persistTrace_map_fst (M : GpsProcessorModel σ) (ts : Int) :
    ∀ (l : List RawData) (gps : σ),
      (persistTrace M gps ts l).map (fun e => e.1) = l := by
  intro l
  induction l with
  | nil => intro gps; simp [persistTrace]
  | cons r rest ih => intro gps; simp [persistTrace, ih]

lemma persistTrace_received_ts (M : GpsProcessorModel σ) (ts : Int) :
    ∀ (l : List RawData) (gps : σ) (e : RawData × ProcessResult × Int),
      e ∈ persistTrace M gps ts l → e.2.2 = ts := by
  intro l
  induction l with
  | nil => intro gps e he; simp [persistTrace] at he
  | cons r rest ih =>
    intro gps e he
    simp only [persistTrace, List.mem_cons] at he
    cases he with
    | inl h => rw [h]
    | inr h => exact ih _ e h

/-- Claim C4: every sample of an ingested batch is persisted exactly once,
together with its classification and the batch's received timestamp,
regardless of whether the cached main renderer is present: the store's
record list is extended by exactly the trace of the sorted batch, whose
samples are a permutation of the batch. -/
theorem c4_every_sample_persisted_once (M : GpsProcessorModel σ) (st : MainState σ)
    (batch : List RawData) (ts : Int) :
    (on_location_update M (some st) batch ts).map (fun s => s.storage.records) =
      some (st.storage.records ++ persistTrace M st.gps_processor ts (sortBatch batch)) ∧
    List.Perm ((persistTrace M st.gps_processor ts (sortBatch batch)).map (fun e => e.1)) batch ∧
    (∀ e ∈ persistTrace M st.gps_processor ts (sortBatch batch), e.2.2 = ts) ∧
    (on_location_update M (some { st with map_renderer := none }) batch ts).map
        (fun s => s.storage.records) =
      (on_location_update M (some st) batch ts).map (fun s => s.storage.records) := by
  refine ⟨?_, ?_, ?_, ?_⟩
  · simp [on_location_update, foldl_step_records]
  · rw [persistTrace_map_fst]
    exact List.mergeSort_perm batch tsLe
  · intro e he
    exact persistTrace_received_ts M ts (sortBatch batch) st.gps_processor e he
  · simp [on_location_update, foldl_step_records]

/-- A trivial concrete segmenter used only by the witnesses: remembers the
last sample, classifies the first ever sample as NewSegment and every
later one as Append. -/
def demoSegmenter : GpsProcessorModel (Option RawData) where
  new := none
  preprocess := fun s r =>
    match s with
    | none => (ProcessResult.NewSegment, some r)
    | some _ => (ProcessResult.Append, some r)
  last_data := fun s => s

/-- A concrete store used only by the witnesses. -/
def demoStorage : Storage :=
  { temp_dir := "t", doc_dir := "d", support_dir := "s", cache_dir := "c",
    journeys := [], records := [], main_dirty := false, main_bitmap := [] }

/-- A concrete singleton state used only by the witnesses. -/
def demoState : MainState (Option RawData) :=
  { storage := demoStorage, map_renderer := none, gps_processor := none }

lemma demo_sortBatch_eq :
    sortBatch ([⟨1, 1, 5⟩, ⟨0, 0, 3⟩] : List RawData) =
      ([⟨0, 0, 3⟩, ⟨1, 1, 5⟩] : List RawData) := by
  simp [sortBatch, List.mergeSort, tsLe]

/-- Witness for C4 on the out-of-order batch from the spec's worked
example: samples at t=5 and t=3, received at t=99. -/
theorem c4_every_sample_persisted_once_witness :
    (on_location_update demoSegmenter (some demoState)
        ([⟨1, 1, 5⟩, ⟨0, 0, 3⟩] : List RawData) 99).map (fun s => s.storage.records) =
      some (demoState.storage.records ++
        persistTrace demoSegmenter demoState.gps_processor 99
          (sortBatch ([⟨1, 1, 5⟩, ⟨0, 0, 3⟩] : List RawData))) ∧
    ((⟨0, 0, 3⟩ : RawData), ProcessResult.NewSegment, (99 : Int)) ∈
      persistTrace demoSegmenter demoState.gps_processor 99
        (sortBatch ([⟨1, 1, 5⟩, ⟨0, 0, 3⟩] : List RawData)) ∧
    ((⟨0, 0, 3⟩ : RawData), ProcessResult.NewSegment, (99 : Int)).2.2 = 99 :=
  ⟨(c4_every_sample_persisted_once demoSegmenter demoState
      ([⟨1, 1, 5⟩, ⟨0, 0, 3⟩] : List RawData) 99).1,
   by rw [demo_sortBatch_eq]; decide,
   (c4_every_sample_persisted_once demoSegmenter demoState
      ([⟨1, 1, 5⟩, ⟨0, 0, 3⟩] : List RawData) 99).2.2.1
     ((⟨0, 0, 3⟩ : RawData), ProcessResult.NewSegment, (99 : Int))
     (by rw [demo_sortBatch_eq]; decide)⟩

/-- Claim C8: initialization is idempotent — the first call builds the
singleton (store opened at the given directories, renderer cache absent,
fresh empty segmenter) without warning, and every later call returns with
the singleton state, store handle included, completely unchanged and only
the multiple-call warning emitted. -/
theorem c8_init_idempotent (M : GpsProcessorModel σ) (st : MainState σ)
    (temp_dir doc_dir support_dir cache_dir : String) :
    init M (some st) temp_dir doc_dir support_dir cache_dir = (st, true) ∧
    init M none temp_dir doc_dir support_dir cache_dir =
      ({ storage := Storage.init temp_dir doc_dir support_dir cache_dir,
         map_renderer := none, gps_processor := M.new }, false) :=
  ⟨rfl, rfl⟩

/-- Claim C10: the MainMap-proxy accessor always returns the MainMap
variant, never fails and is independent of the singleton (callable before
initialization); only a later render or reset on the returned proxy
touches the singleton and aborts (models a panic as `none`) when it is
uninitialized. -/
theorem c10_main_map_accessor_pure (g g' : Option (MainState σ))
    (zoom left top right bottom : Int) :
    get_map_renderer_proxy_for_main_map g = MapRendererProxy.MainMap ∧
    get_map_renderer_proxy_for_main_map g = get_map_renderer_proxy_for_main_map g' ∧
    MapRendererProxy.render_map_overlay (σ := σ) MapRendererProxy.MainMap none
      zoom left top right bottom = none ∧
    MapRendererProxy.reset_map_renderer (σ := σ) MapRendererProxy.MainMap none = none :=
  ⟨rfl, rfl, rfl, rfl⟩

/-- Claim C5: after the store reports the main path changed, the next
MainMap render discards the cached renderer and rebuilds it from the
store's latest main-path snapshot, clearing the flag (so the rebuild
happens exactly once); a render with no reported change and a present
cache reuses that very renderer — the slot afterwards holds the same
renderer advanced by one render call, never a freshly built one. -/
theorem c5_main_cache_rebuild_once (st : MainState σ) (mr : MapRenderer)
    (zoom left top right bottom : Int) :
    (st.storage.main_dirty = true →
      MapRendererProxy.render_map_overlay MapRendererProxy.MainMap (some st)
          zoom left top right bottom =
        some (((MapRenderer.new st.storage.main_bitmap).maybe_render_map_overlay
                 (max zoom 2) left top right bottom).1,
          MapRendererProxy.MainMap,
          some { st with
            storage := { st.storage with main_dirty := false },
            map_renderer := some ((MapRenderer.new st.storage.main_bitmap).maybe_render_map_overlay
              (max zoom 2) left top right bottom).2 })) ∧
    (st.storage.main_dirty = false → st.map_renderer = some mr →
      MapRendererProxy.render_map_overlay MapRendererProxy.MainMap (some st)
          zoom left top right bottom =
        some ((mr.maybe_render_map_overlay (max zoom 2) left top right bottom).1,
          MapRendererProxy.MainMap,
          some { st with
            map_renderer := some ((mr.maybe_render_map_overlay
              (max zoom 2) left top right bottom).2) })) := by
  constructor
  · intro h
    simp [MapRendererProxy.render_map_overlay, render_with_zoom,
      Storage.main_map_renderer_need_to_reload,
      Storage.get_latest_bitmap_for_main_map_renderer, h]
  · intro h hmr
    obtain ⟨sto, mro, gp⟩ := st
    obtain ⟨td, dd, sd, cd, js, recs, dirty, mb⟩ := sto
    simp only at h hmr
    subst h
    subst hmr
    simp [MapRendererProxy.render_map_overlay, render_with_zoom,
      Storage.main_map_renderer_need_to_reload,
      Storage.get_latest_bitmap_for_main_map_renderer]

/-- A dirty-flagged singleton state used only by the C5 witness. -/
def dirtyState : MainState Unit :=
  { storage := { demoStorage with main_dirty := true },
    map_renderer := none, gps_processor := () }

/-- A clean singleton state with a present cache, used only by the C5
witness. -/
def cleanState : MainState Unit :=
  { storage := demoStorage, map_renderer := some (MapRenderer.new []),
    gps_processor := () }

/-- Witness for C5: one render on a dirty state rebuilds from the
snapshot and clears the flag; one render on a clean state with a present
cache reuses it. -/
theorem c5_main_cache_rebuild_once_witness :
    dirtyState.storage.main_dirty = true ∧
    MapRendererProxy.render_map_overlay MapRendererProxy.MainMap (some dirtyState) 1 0 0 0 0 =
      some (((MapRenderer.new dirtyState.storage.main_bitmap).maybe_render_map_overlay
               (max 1 2) 0 0 0 0).1,
        MapRendererProxy.MainMap,
        some { dirtyState with
          storage := { dirtyState.storage with main_dirty := false },
          map_renderer := some ((MapRenderer.new dirtyState.storage.main_bitmap).maybe_render_map_overlay
            (max 1 2) 0 0 0 0).2 }) ∧
    cleanState.storage.main_dirty = false ∧
    MapRendererProxy.render_map_overlay MapRendererProxy.MainMap (some cleanState) 1 0 0 0 0 =
      some (((MapRenderer.new []).maybe_render_map_overlay (max 1 2) 0 0 0 0).1,
        MapRendererProxy.MainMap,
        some { cleanState with
          map_renderer := some ((MapRenderer.new []).maybe_render_map_overlay
            (max 1 2) 0 0 0 0).2 }) :=
  ⟨rfl,
   (c5_main_cache_rebuild_once dirtyState (MapRenderer.new []) 1 0 0 0 0).1 rfl,
   rfl,
   (c5_main_cache_rebuild_once cleanState (MapRenderer.new []) 1 0 0 0 0).2 rfl rfl⟩

/-- Claim C6: `for_journey` fetches the journey inside one store
transaction and fails with the store's lookup error when absent; a
bitmap-stored journey's bitmap is used directly, and a vector-stored
journey's bitmap is the replay of every stored segment, via the shared
line-adding primitive, into a fresh empty bitmap. -/
theorem c6_for_journey_construction (st : MainState σ) (journey_id : String) :
    (st.storage.journeys.lookup journey_id = none →
      get_map_renderer_proxy_for_journey (some st) journey_id =
        some (Except.error (Err.notFound journey_id))) ∧
    (∀ bitmap, st.storage.journeys.lookup journey_id = some (JourneyData.Bitmap bitmap) →
      get_map_renderer_proxy_for_journey (some st) journey_id =
        some (Except.ok (MapRendererProxy.Simple (MapRenderer.new bitmap)))) ∧
    (∀ vector, st.storage.journeys.lookup journey_id = some (JourneyData.Vector vector) →
      get_map_renderer_proxy_for_journey (some st) journey_id =
        some (Except.ok (MapRendererProxy.Simple (MapRenderer.new
          (vector.foldl (fun bm seg =>
              bm.add_line seg.start_lng seg.start_lat seg.end_lng seg.end_lat)
            JourneyBitmap.new))))) := by
  refine ⟨?_, ?_, ?_⟩
  · intro h
    simp [get_map_renderer_proxy_for_journey, Storage.with_db_txn, Storage.get_journey, h]
  · intro bitmap h
    simp [get_map_renderer_proxy_for_journey, Storage.with_db_txn, Storage.get_journey, h]
  · intro vector h
    simp [get_map_renderer_proxy_for_journey, Storage.with_db_txn, Storage.get_journey,
      add_journey_vector_to_journey_bitmap, h]

/-- A store holding one bitmap-stored and one vector-stored journey, used
only by the C6/C7 witnesses. -/
def demoJourneyState : MainState Unit :=
  { storage := { demoStorage with journeys :=
      [("bm", JourneyData.Bitmap [⟨0, 0, 1, 1⟩]),
       ("vec", JourneyData.Vector [⟨0, 0, 1, 1⟩, ⟨1, 1, 2, 2⟩])] },
    map_renderer := none, gps_processor := () }

/-- Witness for C6: an absent id fails with the lookup error, a stored
bitmap is used directly, a stored vector path is replayed from empty. -/
theorem c6_for_journey_construction_witness :
    get_map_renderer_proxy_for_journey (some demoJourneyState) "nope" =
      some (Except.error (Err.notFound "nope")) ∧
    get_map_renderer_proxy_for_journey (some demoJourneyState) "bm" =
      some (Except.ok (MapRendererProxy.Simple (MapRenderer.new [⟨0, 0, 1, 1⟩]))) ∧
    get_map_renderer_proxy_for_journey (some demoJourneyState) "vec" =
      some (Except.ok (MapRendererProxy.Simple (MapRenderer.new
        (([⟨0, 0, 1, 1⟩, ⟨1, 1, 2, 2⟩] : JourneyVector).foldl (fun bm seg =>
            bm.add_line seg.start_lng seg.start_lat seg.end_lng seg.end_lat)
          JourneyBitmap.new)))) :=
  ⟨(c6_for_journey_construction demoJourneyState "nope").1 (by decide),
   (c6_for_journey_construction demoJourneyState "bm").2.1 [⟨0, 0, 1, 1⟩] (by decide),
   (c6_for_journey_construction demoJourneyState "vec").2.2
     [⟨0, 0, 1, 1⟩, ⟨1, 1, 2, 2⟩] (by decide)⟩

/-- Claim C7: exporting a bitmap-stored journey to GPX or KML fails with
the distinct wrong-data-kind error and never creates the target file; only
a vector-stored journey gets the target file created and its serialization
attempted. -/
theorem c7_export_wrong_data_kind (st : MainState σ) (target_filepath journey_id : String)
    (export_type : ExportType) :
    (∀ bitmap, st.storage.journeys.lookup journey_id = some (JourneyData.Bitmap bitmap) →
      export_journey (some st) target_filepath journey_id export_type =
        some (Except.error Err.dataTypeError,
          { files_created := [], serialized := none })) ∧
    (∀ vector, st.storage.journeys.lookup journey_id = some (JourneyData.Vector vector) →
      export_journey (some st) target_filepath journey_id export_type =
        some (Except.ok (),
          { files_created := [target_filepath],
            serialized := some (export_type, vector) })) := by
  constructor
  · intro bitmap h
    simp [export_journey, Storage.with_db_txn, Storage.get_journey, h]
  · intro vector h
    simp [export_journey, Storage.with_db_txn, Storage.get_journey, h]

/-- Witness for C7: the bitmap journey fails with the wrong-data-kind
error and no file is created; the vector journey gets its file created and
its serialization attempted. -/
theorem c7_export_wrong_data_kind_witness :
    export_journey (some demoJourneyState) "out.gpx" "bm" ExportType.GPX =
      some (Except.error Err.dataTypeError, { files_created := [], serialized := none }) ∧
    export_journey (some demoJourneyState) "out.gpx" "vec" ExportType.GPX =
      some (Except.ok (),
        { files_created := ["out.gpx"],
          serialized := some (ExportType.GPX, [⟨0, 0, 1, 1⟩, ⟨1, 1, 2, 2⟩]) }) :=
  ⟨(c7_export_wrong_data_kind demoJourneyState "out.gpx" "bm" ExportType.GPX).1
     [⟨0, 0, 1, 1⟩] (by decide),
   (c7_export_wrong_data_kind demoJourneyState "out.gpx" "vec" ExportType.GPX).2
     [⟨0, 0, 1, 1⟩, ⟨1, 1, 2, 2⟩] (by decide)⟩

end MemoLanes
